import Mathlib

/-!
Verification of the city-layout core of the Anti-Gravity-City repository.

The definitions in this file are a shallow embedding of
`src/lore-of-the-repo/src/utils/cityBuilder.js`:

* JS numbers are idealized as rationals (`ℚ`); `Math.cos`, `Math.sin` and
  `Math.PI` are opaque primitives packaged in a `MathPrims` record, since the
  layout claims are about the formula structure, not about particular
  trigonometric values.
* Fields that a JS object may lack (`size`, `sha`) are `Option`s, and the
  JS `x || d` defaulting idiom (which also replaces `0` and `""`) is modelled
  explicitly.
* `buildCityLayout` returns `Option CityLayout`: `none` models the one input
  on which the JS function throws (a non-empty tree together with an absent
  `repoMeta`, where `repoMeta.name` raises a `TypeError`).
-/

namespace AntiGravityCity

/-- The trigonometric primitives used by the placement code (`Math.cos`,
`Math.sin`, `Math.PI`), kept abstract over `ℚ`. -/
structure MathPrims where
  cos : ℚ → ℚ
  sin : ℚ → ℚ
  pi : ℚ

/-- GitHub tree entry kind: `"tree"` (directory) or `"blob"` (file). -/
inductive EntryType where
  | tree
  | blob
  deriving DecidableEq, Repr

/-- One entry of the `treeData` input array. `size` and `sha` may be absent. -/
structure TreeEntry where
  path : String
  type : EntryType
  size : Option Nat := none
  sha : Option String := none
  deriving DecidableEq, Repr

/-- The `repoMeta` input; only its `name` is read by the layout code. -/
structure RepoMeta where
  name : String
  deriving DecidableEq, Repr

/-- The `type` tag of an output island object. -/
inductive IslandType where
  | core
  | directory
  | sun
  | star
  deriving DecidableEq, Repr

/-- One output node (`islands` array element). Fields that only some island
variants carry are `Option`s defaulting to `none` (absent in the JS object). -/
structure Island where
  id : String
  name : String
  type : IslandType
  position : ℚ × ℚ × ℚ
  scale : ℚ
  altitude : ℚ
  angle : Option ℚ := none
  orbitSpeed : Option ℚ := none
  orbitRadius : Option ℚ := none
  depth : Option Nat := none
  originalPath : Option String := none
  fileCount : Option Nat := none
  fileSize : Option Nat := none
  isCore : Bool := false
  deriving DecidableEq, Repr

/-- One output edge (`connections` array element). The JS fields `from`/`to`
are spelled `fromPos`/`toPos` because `from` is a Lean keyword. -/
structure Connection where
  id : String
  fromPos : ℚ × ℚ × ℚ
  toPos : ℚ × ℚ × ℚ
  thickness : ℚ
  isPrimary : Bool
  deriving DecidableEq, Repr

/-- The value returned by the layout builders. -/
structure CityLayout where
  islands : List Island
  connections : List Connection
  deriving DecidableEq, Repr

/-- JS `opt || dflt` on an optional string: absent and `""` are falsy. -/
def jsOrString (opt : Option String) (dflt : String) : String :=
  match opt with
  | some s => if s = "" then dflt else s
  | none => dflt

/-- The `ALTITUDE_MAP` object literal, as an association list. -/
def ALTITUDE_MAP : List (String × ℚ) :=
  [("src", 12), ("core", 11), ("lib", 10), ("main", 10), ("api", 9), ("app", 9),
   ("components", 7), ("utils", 6), ("services", 6), ("hooks", 6), ("store", 6), ("context", 6),
   ("assets", 4), ("styles", 4), ("public", 4), ("static", 4),
   ("test", 2), ("tests", 2), ("__tests__", 2), ("examples", 2),
   ("docs", 1), ("deprecated", 0), ("legacy", 0)]

/-- `ALTITUDE_MAP[key]` restricted to own keys of the literal; `none` when no
own key matches. JS bracket lookup additionally walks the prototype chain —
that full behaviour is `altitudeMapGetJs` below. -/
def altitudeLookup (key : String) : Option ℚ :=
  (ALTITUDE_MAP.find? (fun p => p.1 == key)).map (fun p => p.2)

/-- `ISLAND_RADIUS_BASE` constant. -/
def ISLAND_RADIUS_BASE : ℚ := 14

/-- The UTF-16 code units of one character, as produced by JS `split('')` /
`charCodeAt` (a non-BMP character contributes its surrogate pair). -/
def utf16Units (c : Char) : List Nat :=
  if c.toNat < 65536 then [c.toNat]
  else [55296 + (c.toNat - 65536) / 1024, 56320 + (c.toNat - 65536) % 1024]

/-- `name.split('').reduce((acc, ch) => acc + ch.charCodeAt(0), 0)`:
the sum of the UTF-16 code units of the string. -/
def nameHash (name : String) : Nat :=
  (name.data.map (fun c => (utf16Units c).sum)).sum

/-- `nameToAngle(name, index, total)` from cityBuilder.js. -/
def nameToAngle (M : MathPrims) (name : String) (index total : Nat) : ℚ :=
  let hash := nameHash name
  let baseAngle := ((index : ℚ) / (total : ℚ)) * M.pi * 2
  let jitter := ((hash % 30 : Nat) : ℚ) * (M.pi / 180)
  baseAngle + jitter

/-- `sizeToScale(size)` from cityBuilder.js. -/
def sizeToScale (size : Nat) : ℚ :=
  if size < 10000 then 0.6
  else if size < 50000 then 0.9
  else if size < 200000 then 1.2
  else if size < 1000000 then 1.6
  else 2.0

/-- `name.toLowerCase()` as a character-wise map. `Char.toLower` is the ASCII
case mapping, which covers every key of `ALTITUDE_MAP` and every prototype
property name; JS `toLowerCase` additionally folds non-ASCII letters (such as
U+212A to `k`), so the model agrees with JS on all-ASCII basenames. -/
def jsToLower (s : String) : String :=
  ⟨s.data.map Char.toLower⟩

/-- The numeric altitude resolver: `getAltitude(name, depth)` restricted to
the table's own keys. This matches the JS function on every basename whose
lowercasing is not an `Object.prototype` property name; the exact JS
behaviour, prototype chain included, is `getAltitudeJs` below. -/
def getAltitude (name : String) (depth : Nat) : ℚ :=
  match altitudeLookup (jsToLower name) with
  | some v => v
  | none => max 0 ((8 : ℚ) - (depth : ℚ) * 2)

/-- The property names a plain object literal inherits from
`Object.prototype`, for which `ALTITUDE_MAP[key]` yields a defined value
(`!== undefined`) even though they are not own keys of the literal. -/
def objectPrototypeKeys : List String :=
  ["constructor", "hasOwnProperty", "isPrototypeOf", "propertyIsEnumerable",
   "toLocaleString", "toString", "valueOf", "__defineGetter__",
   "__defineSetter__", "__lookupGetter__", "__lookupSetter__", "__proto__"]

/-- A value read off the `ALTITUDE_MAP` object: an own key holds a number; an
inherited `Object.prototype` member is a function or object, not a number. -/
inductive JsLookupValue where
  | num (q : ℚ)
  | protoMember (key : String)
  deriving DecidableEq, Repr

/-- `ALTITUDE_MAP[key]` with full JS property-lookup semantics: own keys
first, then the prototype chain; `none` is JS `undefined`. -/
def altitudeMapGetJs (key : String) : Option JsLookupValue :=
  match altitudeLookup key with
  | some v => some (.num v)
  | none => if key ∈ objectPrototypeKeys then some (.protoMember key) else none

/-- `getAltitude(name, depth)` from cityBuilder.js with the object lookup's
prototype chain modelled: `ALTITUDE_MAP[key] !== undefined` also succeeds on
inherited `Object.prototype` members, and the function returns them. -/
def getAltitudeJs (name : String) (depth : Nat) : JsLookupValue :=
  match altitudeMapGetJs (jsToLower name) with
  | some v => v
  | none => .num (max 0 ((8 : ℚ) - (depth : ℚ) * 2))

/-- Split a character list at every occurrence of `sep` (the segments of JS
`String.prototype.split` with a single-character separator). -/
def splitOnChar (sep : Char) : List Char → List (List Char)
  | [] => [[]]
  | c :: cs =>
    let r := splitOnChar sep cs
    if c == sep then [] :: r
    else
      match r with
      | [] => [[c]]
      | h :: t => (c :: h) :: t

/-- `path.split('/').pop()`: the last path segment. -/
def basename (path : String) : String :=
  ⟨(splitOnChar '/' path.data).getLastD []⟩

/-- `(path.match(/\//g) || []).length`: the number of `/` characters. -/
def pathDepth (path : String) : Nat :=
  path.data.countP (fun c => c == '/')

/-- `path.includes('/')`. -/
def hasSlash (path : String) : Bool :=
  path.data.any (fun c => c == '/')

/-- The sort key `(x.size || 0)` used by the top-file comparator. -/
def sizeOrZero (e : TreeEntry) : Nat :=
  e.size.getD 0

/-- The placement size `(file.size || 1000)`: absent and `0` become `1000`. -/
def sizeOrDefault (e : TreeEntry) : Nat :=
  match e.size with
  | some s => if s = 0 then 1000 else s
  | none => 1000

/-- Insert into a list already sorted by `sizeOrZero` descending, keeping the
inserted element in front of equal keys (the stable-sort placement of an
earlier input element). -/
def insertBySizeDesc (a : TreeEntry) : List TreeEntry → List TreeEntry
  | [] => [a]
  | b :: l => if sizeOrZero b ≤ sizeOrZero a then a :: b :: l else b :: insertBySizeDesc a l

/-- Stable sort by `(b.size || 0) - (a.size || 0)` — descending by size, ties
in input order, as guaranteed for `Array.prototype.sort` since ES2019. -/
def sortBySizeDesc : List TreeEntry → List TreeEntry
  | [] => []
  | a :: l => insertBySizeDesc a (sortBySizeDesc l)

/-- `treeData.filter(item => item.type === 'blob').sort(...).slice(0, 8)`. -/
def topFilesSel (treeData : List TreeEntry) : List TreeEntry :=
  (sortBySizeDesc (treeData.filter (fun e => e.type == .blob))).take 8

/-- `treeData.filter(item => item.type === 'tree')`. -/
def dirsSel (treeData : List TreeEntry) : List TreeEntry :=
  treeData.filter (fun e => e.type == .tree)

/-- `dirs.filter(d => !d.path.includes('/')).slice(0, 16)`. -/
def topDirsSel (treeData : List TreeEntry) : List TreeEntry :=
  ((dirsSel treeData).filter (fun d => !hasSlash d.path)).take 16

/-- `forEach` with the element's index, starting from `i`. -/
def mapIdxFrom (f : Nat → α → β) : Nat → List α → List β
  | _, [] => []
  | i, a :: l => f i a :: mapIdxFrom f (i + 1) l

/-- `forEach` with the element's index, from 0. -/
def mapIdx0 (f : Nat → α → β) (l : List α) : List β :=
  mapIdxFrom f 0 l

/-- The directory island pushed for `topDirs[i]` (of `n` total). -/
def dirIsland (M : MathPrims) (n i : Nat) (dir : TreeEntry) : Island :=
  let name := basename dir.path
  let depth := pathDepth dir.path
  let altitude := getAltitude name depth
  let angle := nameToAngle M name i n
  let radius := ISLAND_RADIUS_BASE + M.sin ((i : ℚ) * 1.3) * 4
  let scale := 0.8 + altitude / 15
  let pos : ℚ × ℚ × ℚ := (M.cos angle * radius, altitude - 5, M.sin angle * radius)
  { id := jsOrString dir.sha ("dir-" ++ toString i)
    name := name
    type := .directory
    position := pos
    scale := scale
    altitude := altitude
    angle := some angle
    orbitSpeed := some (0.0002 + altitude * 0.00003)
    orbitRadius := some radius
    depth := some depth
    originalPath := some dir.path }

/-- The connection pushed for `topDirs[i]` (of `n` total). -/
def dirConnection (M : MathPrims) (n i : Nat) (dir : TreeEntry) : Connection :=
  let isl := dirIsland M n i dir
  { id := "conn-core-" ++ toString i
    fromPos := (0, 0, 0)
    toPos := isl.position
    thickness := if isl.altitude > 8 then 2 else 1
    isPrimary := decide (isl.altitude > 7) }

/-- The file island pushed for `topFiles[i]` (of `m` total). -/
def fileIsland (M : MathPrims) (m i : Nat) (file : TreeEntry) : Island :=
  let name := basename file.path
  let size := sizeOrDefault file
  let angle := ((i : ℚ) / (m : ℚ)) * M.pi * 2 + M.pi / 4
  let radius := (6 : ℚ) + ((i % 3 : Nat) : ℚ) * 2
  let altitude := (2 : ℚ) + (if size > 50000 then 4 else 0)
  { id := jsOrString file.sha ("file-" ++ toString i)
    name := name
    type := if size > 50000 then .sun else .star
    position := (M.cos angle * radius, altitude - 3, M.sin angle * radius)
    scale := sizeToScale size
    altitude := altitude
    fileSize := some size
    originalPath := some file.path }

/-- The central core island pushed first on the primary path. -/
def coreIsland (meta : RepoMeta) (entryCount : Nat) : Island :=
  { id := "core-station"
    name := meta.name
    type := .core
    position := (0, 0, 0)
    scale := 2.5
    altitude := 0
    fileCount := some entryCount
    isCore := true }

/-- `buildDemoCity(repoMeta)` from cityBuilder.js, verbatim constants. -/
def buildDemoCity (repoMeta : Option RepoMeta) : CityLayout :=
  let name := jsOrString (repoMeta.map RepoMeta.name) "DemoRepo"
  { islands :=
      [{ id := "core-station", name := name, type := .core, position := (0, 0, 0),
         scale := 2.5, altitude := 0, isCore := true, fileCount := some 247 },
       { id := "src", name := "src", type := .directory, position := (-12, 7, -5), scale := 1.4,
         altitude := 12, angle := some 0, orbitSpeed := some 0.0003, orbitRadius := some 13 },
       { id := "api", name := "api", type := .directory, position := (10, 6, -8), scale := 1.3,
         altitude := 9, angle := some 1.2, orbitSpeed := some 0.00025, orbitRadius := some 13 },
       { id := "components", name := "components", type := .directory, position := (5, 2, 12), scale := 1.1,
         altitude := 7, angle := some 2.1, orbitSpeed := some 0.00022, orbitRadius := some 13 },
       { id := "utils", name := "utils", type := .directory, position := (-8, 1, 10), scale := 1.0,
         altitude := 6, angle := some 3.0, orbitSpeed := some 0.0002, orbitRadius := some 12 },
       { id := "hooks", name := "hooks", type := .directory, position := (14, 1, 3), scale := 0.9,
         altitude := 6, angle := some 3.8, orbitSpeed := some 0.00018, orbitRadius := some 14 },
       { id := "store", name := "store", type := .directory, position := (-14, 0, -3), scale := 0.9,
         altitude := 6, angle := some 4.5, orbitSpeed := some 0.00017, orbitRadius := some 14 },
       { id := "assets", name := "assets", type := .directory, position := (3, -3, -14), scale := 0.8,
         altitude := 4, angle := some 5.2, orbitSpeed := some 0.00015, orbitRadius := some 14 },
       { id := "tests", name := "tests", type := .directory, position := (-6, -5, -12), scale := 0.7,
         altitude := 2, angle := some 5.9, orbitSpeed := some 0.00012, orbitRadius := some 13 },
       { id := "docs", name := "docs", type := .directory, position := (12, -6, 7), scale := 0.65,
         altitude := 1, angle := some 0.8, orbitSpeed := some 0.0001, orbitRadius := some 14 },
       { id := "main-file", name := "index.js", type := .sun, position := (4, 5, 4),
         scale := 1.2, altitude := 8, fileSize := some 80000 },
       { id := "config-file", name := "config.json", type := .star, position := (-4, 3, 5),
         scale := 0.7, altitude := 5, fileSize := some 5000 },
       { id := "readme", name := "README.md", type := .star, position := (6, 2, -5),
         scale := 0.65, altitude := 3, fileSize := some 3000 }]
    connections :=
      [{ id := "c1", fromPos := (0, 0, 0), toPos := (-12, 7, -5), thickness := 2, isPrimary := true },
       { id := "c2", fromPos := (0, 0, 0), toPos := (10, 6, -8), thickness := 2, isPrimary := true },
       { id := "c3", fromPos := (0, 0, 0), toPos := (5, 2, 12), thickness := 1.5, isPrimary := true },
       { id := "c4", fromPos := (0, 0, 0), toPos := (-8, 1, 10), thickness := 1, isPrimary := false },
       { id := "c5", fromPos := (0, 0, 0), toPos := (14, 1, 3), thickness := 1, isPrimary := false },
       { id := "c6", fromPos := (0, 0, 0), toPos := (-14, 0, -3), thickness := 1, isPrimary := false },
       { id := "c7", fromPos := (0, 0, 0), toPos := (3, -3, -14), thickness := 0.8, isPrimary := false },
       { id := "c8", fromPos := (0, 0, 0), toPos := (-6, -5, -12), thickness := 0.6, isPrimary := false },
       { id := "c9", fromPos := (-12, 7, -5), toPos := (5, 2, 12), thickness := 1, isPrimary := false },
       { id := "c10", fromPos := (10, 6, -8), toPos := (14, 1, 3), thickness := 0.8, isPrimary := false }] }

/-- The primary (non-fallback, non-throwing) branch of `buildCityLayout`. -/
def mainCity (M : MathPrims) (treeData : List TreeEntry) (meta : RepoMeta) : CityLayout :=
  let topDirs := topDirsSel treeData
  let topFiles := topFilesSel treeData
  { islands :=
      coreIsland meta treeData.length ::
        (mapIdx0 (dirIsland M topDirs.length) topDirs ++
         mapIdx0 (fileIsland M topFiles.length) topFiles)
    connections := mapIdx0 (dirConnection M topDirs.length) topDirs }

/-- `buildCityLayout(treeData, repoMeta)`. `treeData = none` models a missing
array (JS `!treeData`), `some []` an empty one (`!treeData.length`); the result
is `none` exactly when the JS code throws (non-empty tree, absent `repoMeta`). -/
def buildCityLayout (M : MathPrims) (treeData : Option (List TreeEntry))
    (repoMeta : Option RepoMeta) : Option CityLayout :=
  match treeData with
  | none => some (buildDemoCity repoMeta)
  | some [] => some (buildDemoCity repoMeta)
  | some (e :: rest) =>
    match repoMeta with
    | none => none
    | some meta => some (mainCity M (e :: rest) meta)

end AntiGravityCity

namespace AntiGravityCity

/-! ### Helper lemmas about the indexed map and the stable sort -/

theorem length_mapIdxFrom (f : Nat → α → β) (i : Nat) (l : List α) :
    (mapIdxFrom f i l).length = l.length := by
  induction l generalizing i with
  | nil => rfl
  | cons a l ih => simp [mapIdxFrom, ih]

theorem getElem?_mapIdxFrom (f : Nat → α → β) (i k : Nat) (l : List α) :
    (mapIdxFrom f i l)[k]? = l[k]?.map (f (i + k)) := by
  induction l generalizing i k with
  | nil => simp [mapIdxFrom]
  | cons a l ih =>
    cases k with
    | zero => simp [mapIdxFrom]
    | succ k =>
      simp only [mapIdxFrom, List.getElem?_cons_succ, ih]
      have : i + 1 + k = i + (k + 1) := by omega
      rw [this]

theorem mem_mapIdxFrom {f : Nat → α → β} {i : Nat} {l : List α} {b : β}
    (hb : b ∈ mapIdxFrom f i l) : ∃ j a, a ∈ l ∧ b = f j a := by
  induction l generalizing i with
  | nil => simp [mapIdxFrom] at hb
  | cons a l ih =>
    simp only [mapIdxFrom, List.mem_cons] at hb
    rcases hb with h | h
    · exact ⟨i, a, by simp, h⟩
    · obtain ⟨j, a', ha', hb'⟩ := ih h
      exact ⟨j, a', by simp [ha'], hb'⟩

theorem map_mapIdxFrom (f : Nat → α → β) (g : β → γ) (h : α → γ) (i : Nat) (l : List α)
    (H : ∀ j a, a ∈ l → g (f j a) = h a) :
    (mapIdxFrom f i l).map g = l.map h := by
  induction l generalizing i with
  | nil => rfl
  | cons a l ih =>
    simp only [mapIdxFrom, List.map_cons]
    rw [H i a (by simp), ih]
    intro j a' ha'
    exact H j a' (by simp [ha'])

theorem perm_insertBySizeDesc (a : TreeEntry) (l : List TreeEntry) :
    (insertBySizeDesc a l).Perm (a :: l) := by
  induction l with
  | nil => exact List.Perm.refl _
  | cons b l ih =>
    by_cases h : sizeOrZero b ≤ sizeOrZero a
    · simp [insertBySizeDesc, h]
    · simp only [insertBySizeDesc, if_neg h]
      exact (ih.cons b).trans (List.Perm.swap a b l)

theorem mem_insertBySizeDesc {a y : TreeEntry} {l : List TreeEntry}
    (hy : y ∈ insertBySizeDesc a l) : y = a ∨ y ∈ l := by
  have := (perm_insertBySizeDesc a l).mem_iff.mp hy
  simpa using this

theorem sorted_insertBySizeDesc (a : TreeEntry) (l : List TreeEntry)
    (hl : l.Pairwise (fun x y => sizeOrZero y ≤ sizeOrZero x)) :
    (insertBySizeDesc a l).Pairwise (fun x y => sizeOrZero y ≤ sizeOrZero x) := by
  induction l with
  | nil => simp [insertBySizeDesc]
  | cons b l ih =>
    rcases List.pairwise_cons.mp hl with ⟨hb, hl'⟩
    by_cases h : sizeOrZero b ≤ sizeOrZero a
    · simp only [insertBySizeDesc, if_pos h]
      refine List.pairwise_cons.mpr ⟨?_, hl⟩
      intro y hy
      rcases List.mem_cons.mp hy with rfl | hy'
      · exact h
      · exact le_trans (hb y hy') h
    · simp only [insertBySizeDesc, if_neg h]
      refine List.pairwise_cons.mpr ⟨?_, ih hl'⟩
      intro y hy
      rcases mem_insertBySizeDesc hy with rfl | hy'
      · exact le_of_not_le h
      · exact hb y hy'

theorem sortBySizeDesc_perm (l : List TreeEntry) : (sortBySizeDesc l).Perm l := by
  induction l with
  | nil => exact List.Perm.refl _
  | cons a l ih =>
    exact (perm_insertBySizeDesc a (sortBySizeDesc l)).trans (ih.cons a)

theorem sortBySizeDesc_sorted (l : List TreeEntry) :
    (sortBySizeDesc l).Pairwise (fun x y => sizeOrZero y ≤ sizeOrZero x) := by
  induction l with
  | nil => simp [sortBySizeDesc]
  | cons a l ih => exact sorted_insertBySizeDesc a _ ih

/-! ### Helper lemmas about the altitude table -/

theorem altitudeMap_nonneg : ∀ p ∈ ALTITUDE_MAP, 0 ≤ p.2 := by decide

theorem altitudeLookup_nonneg {key : String} {v : ℚ} (h : altitudeLookup key = some v) :
    0 ≤ v := by
  unfold altitudeLookup at h
  cases hf : ALTITUDE_MAP.find? (fun p => p.1 == key) with
  | none => rw [hf] at h; simp at h
  | some p =>
    rw [hf] at h
    have hv : p.2 = v := by simpa using h
    have hp := List.mem_of_find?_eq_some hf
    rw [← hv]
    exact altitudeMap_nonneg p hp

theorem getAltitude_nonneg (name : String) (depth : Nat) : 0 ≤ getAltitude name depth := by
  unfold getAltitude
  cases h : altitudeLookup (jsToLower name) with
  | none => exact le_max_left 0 _
  | some v => exact altitudeLookup_nonneg h

end AntiGravityCity

namespace AntiGravityCity

/-! ### Concrete sample inputs used to instantiate the theorems -/

/-- A concrete instantiation of the trigonometric primitives, used to evaluate
the layout on sample inputs. -/
def M0 : MathPrims := { cos := fun _ => 1, sin := fun q => q, pi := 0 }

/-- Sample tree: two top-level directories and one large file. -/
def exTree : List TreeEntry :=
  [{ path := "src", type := .tree },
   { path := "docs", type := .tree },
   { path := "src/index.js", type := .blob, size := some 80000, sha := some "sha1" }]

/-- Sample repository metadata. -/
def exMeta : RepoMeta := { name := "demo" }

/-! ### Facts about the island constructors -/

theorem dirIsland_type (M : MathPrims) (n i : Nat) (d : TreeEntry) :
    (dirIsland M n i d).type = .directory := rfl

theorem fileIsland_type (M : MathPrims) (m i : Nat) (f : TreeEntry) :
    (fileIsland M m i f).type = (if sizeOrDefault f > 50000 then .sun else .star) := rfl

theorem filter_core_dirs (M : MathPrims) (n i : Nat) (l : List TreeEntry) :
    (mapIdxFrom (dirIsland M n) i l).filter (fun x => x.type == IslandType.core) = [] := by
  apply List.filter_eq_nil_iff.mpr
  intro x hx
  obtain ⟨j, a, _, rfl⟩ := mem_mapIdxFrom hx
  simp [dirIsland]

theorem filter_core_files (M : MathPrims) (m i : Nat) (l : List TreeEntry) :
    (mapIdxFrom (fileIsland M m) i l).filter (fun x => x.type == IslandType.core) = [] := by
  apply List.filter_eq_nil_iff.mpr
  intro x hx
  obtain ⟨j, a, _, rfl⟩ := mem_mapIdxFrom hx
  rw [fileIsland_type]
  split <;> simp

/-- The core-invariant conjunction, on the demo layout. -/
theorem demo_core_invariant (rm : Option RepoMeta) :
    ((buildDemoCity rm).islands.filter (fun n => n.type == IslandType.core)).length = 1 ∧
      ∀ n ∈ (buildDemoCity rm).islands, n.type = .core →
        n.position = (0, 0, 0) ∧ n.scale = 2.5 ∧ n.altitude = 0 := by
  constructor
  · rfl
  · intro n hn hcore
    simp only [buildDemoCity, List.mem_cons, List.not_mem_nil, or_false] at hn
    rcases hn with rfl | rfl | rfl | rfl | rfl | rfl | rfl | rfl | rfl | rfl | rfl | rfl | rfl
    · exact ⟨rfl, rfl, rfl⟩
    all_goals simp at hcore

/-- C1: determinism — `buildCityLayout` is a pure function of its arguments
(`treeData`, `repoMeta`): two invocations on equal inputs return equal
`CityLayout` values (every node and edge field included); the embedding reads
no clock, randomness, or ambient state. -/
theorem c1_determinism (M : MathPrims) (t t' : Option (List TreeEntry))
    (r r' : Option RepoMeta) (ht : t = t') (hr : r = r') :
    buildCityLayout M t r = buildCityLayout M t' r' := by
  rw [ht, hr]

theorem c1_determinism_witness :
    buildCityLayout M0 (some exTree) (some exMeta) =
      buildCityLayout M0 (some exTree) (some exMeta) :=
  c1_determinism M0 (some exTree) (some exTree) (some exMeta) (some exMeta) rfl rfl

/-- C2: core node invariant — whenever `buildCityLayout` returns a layout
(primary path or empty-tree fallback), the island list contains exactly one
node of the Core variant, and every Core node in it sits at `(0,0,0)` with
scale `2.5` and altitude `0`. -/
theorem c2_core_invariant (M : MathPrims) (treeData : Option (List TreeEntry))
    (repoMeta : Option RepoMeta) (L : CityLayout)
    (h : buildCityLayout M treeData repoMeta = some L) :
    (L.islands.filter (fun n => n.type == IslandType.core)).length = 1 ∧
      ∀ n ∈ L.islands, n.type = .core →
        n.position = (0, 0, 0) ∧ n.scale = 2.5 ∧ n.altitude = 0 := by
  match treeData with
  | none =>
    cases h
    exact demo_core_invariant repoMeta
  | some [] =>
    cases h
    exact demo_core_invariant repoMeta
  | some (e :: rest) =>
    match repoMeta with
    | none => cases h
    | some meta =>
      cases h
      constructor
      · show ((coreIsland meta (e :: rest).length ::
            (mapIdx0 (dirIsland M _) _ ++ mapIdx0 (fileIsland M _) _)).filter _).length = 1
        simp only [mapIdx0]
        rw [List.filter_cons_of_pos (by rfl), List.filter_append,
          filter_core_dirs, filter_core_files]
        rfl
      · intro n hn hcore
        rcases List.mem_cons.mp hn with rfl | hn'
        · exact ⟨rfl, rfl, rfl⟩
        · exfalso
          rcases List.mem_append.mp hn' with h1 | h2
          · obtain ⟨j, a, _, rfl⟩ := mem_mapIdxFrom h1
            simp [dirIsland] at hcore
          · obtain ⟨j, a, _, rfl⟩ := mem_mapIdxFrom h2
            rw [fileIsland_type] at hcore
            revert hcore
            split <;> simp

theorem c2_core_invariant_witness :
    ((buildDemoCity none).islands.filter (fun n => n.type == IslandType.core)).length = 1 :=
  (c2_core_invariant M0 (some []) none (buildDemoCity none) rfl).1

/-- C3: fallback on insufficient input — with a missing or empty `treeData`,
`buildCityLayout` returns (never throws) the fixed demo layout for any
`repoMeta`: a non-empty island list of the 13 hand-specified nodes and the 10
hand-specified edges, whose core node takes its name from `repoMeta`
(defaulting to `"DemoRepo"` when `repoMeta` is absent), and whose remaining
nodes and all edges are constants independent of `repoMeta`. -/
theorem c3_fallback (M : MathPrims) (rm rm' : Option RepoMeta) :
    buildCityLayout M none rm = some (buildDemoCity rm) ∧
    buildCityLayout M (some []) rm = some (buildDemoCity rm) ∧
    (buildDemoCity rm).islands ≠ [] ∧
    (buildDemoCity rm).islands.length = 13 ∧
    (buildDemoCity rm).connections.length = 10 ∧
    (∃ core rest, (buildDemoCity rm).islands = core :: rest ∧
      core.type = .core ∧ core.name = jsOrString (rm.map RepoMeta.name) "DemoRepo") ∧
    (buildDemoCity rm).islands.tail = (buildDemoCity rm').islands.tail ∧
    (buildDemoCity rm).connections = (buildDemoCity rm').connections := by
  refine ⟨rfl, rfl, ?_, rfl, rfl, ⟨_, _, rfl, rfl, rfl⟩, rfl, rfl⟩
  simp [buildDemoCity]

/-- C7: the altitude resolver is not total on the code — `ALTITUDE_MAP[key]`
walks the prototype chain, so a basename whose lowercasing is an
`Object.prototype` property name (`constructor`, `__proto__`, in any letter
case) makes `getAltitude` return the inherited member, a function or object
rather than a number, and in particular not `max 0 (8 − depth·2)` (which at
depth 0 would be 8); on every basename that reaches neither the table nor a
prototype member, the claimed formula and the non-negative floor do hold. -/
theorem c7_altitude_prototype_bug :
    getAltitudeJs "constructor" 0 = .protoMember "constructor" ∧
    (∀ q : ℚ, getAltitudeJs "constructor" 0 ≠ .num q) ∧
    getAltitudeJs "Constructor" 5 = .protoMember "constructor" ∧
    getAltitudeJs "__proto__" 2 = .protoMember "__proto__" ∧
    max 0 ((8 : ℚ) - (0 : ℚ) * 2) = 8 ∧
    (∀ (name : String) (depth : Nat), altitudeMapGetJs (jsToLower name) = none →
      getAltitudeJs name depth = .num (max 0 ((8 : ℚ) - (depth : ℚ) * 2)) ∧
      (0 : ℚ) ≤ max 0 ((8 : ℚ) - (depth : ℚ) * 2)) := by
  refine ⟨rfl, ?_, rfl, rfl, by norm_num, ?_⟩
  · intro q h
    have h' : JsLookupValue.protoMember "constructor" = JsLookupValue.num q := h
    injection h'
  · intro name depth h
    unfold getAltitudeJs
    rw [h]
    exact ⟨rfl, le_max_left 0 _⟩

theorem c7_altitude_prototype_bug_witness :
    getAltitudeJs "flux" 3 = .num (max 0 ((8 : ℚ) - ((3 : Nat) : ℚ) * 2)) ∧
    (0 : ℚ) ≤ max 0 ((8 : ℚ) - ((3 : Nat) : ℚ) * 2) :=
  c7_altitude_prototype_bug.2.2.2.2.2 "flux" 3 (by decide)

end AntiGravityCity

namespace AntiGravityCity

theorem mainCity_islands (M : MathPrims) (ts : List TreeEntry) (meta : RepoMeta) :
    (mainCity M ts meta).islands =
      coreIsland meta ts.length ::
        (mapIdx0 (dirIsland M (topDirsSel ts).length) (topDirsSel ts) ++
         mapIdx0 (fileIsland M (topFilesSel ts).length) (topFilesSel ts)) := rfl

theorem mainCity_connections (M : MathPrims) (ts : List TreeEntry) (meta : RepoMeta) :
    (mainCity M ts meta).connections =
      mapIdx0 (dirConnection M (topDirsSel ts).length) (topDirsSel ts) := rfl

/-- C4: Tree Normalizer contract — the directories selected for placement are
exactly the Directory entries whose path has no `/`, in input order (a sublist
of the input, no sort), truncated to 16; the files selected are File entries
only, at most 8, and equal to the first 8 of a size-descending sorted
permutation of all File entries. -/
theorem c4_tree_normalizer (t : List TreeEntry) :
    topDirsSel t = (t.filter (fun e => e.type == EntryType.tree && !hasSlash e.path)).take 16 ∧
    (∀ e ∈ topDirsSel t, e.type = .tree ∧ hasSlash e.path = false) ∧
    (topDirsSel t).Sublist t ∧
    (topDirsSel t).length ≤ 16 ∧
    (∀ e ∈ topFilesSel t, e.type = .blob) ∧
    (topFilesSel t).length ≤ 8 ∧
    ∃ l, (t.filter (fun e => e.type == EntryType.blob)).Perm l ∧
      l.Pairwise (fun a b => sizeOrZero b ≤ sizeOrZero a) ∧ topFilesSel t = l.take 8 := by
  refine ⟨?_, ?_, ?_, List.length_take_le 16 _, ?_, List.length_take_le 8 _,
    sortBySizeDesc (t.filter (fun e => e.type == EntryType.blob)),
    (sortBySizeDesc_perm _).symm, sortBySizeDesc_sorted _, rfl⟩
  · unfold topDirsSel dirsSel
    rw [List.filter_filter]
    refine congrArg (List.take 16) (List.filter_congr ?_)
    intro e _
    exact Bool.and_comm _ _
  · intro e he
    have he' := List.mem_of_mem_take he
    obtain ⟨hin, hq⟩ := List.mem_filter.mp he'
    obtain ⟨_, hp⟩ := List.mem_filter.mp hin
    exact ⟨by simpa using hp, by simpa using hq⟩
  · exact (List.take_sublist _ _).trans
      ((List.filter_sublist _).trans (List.filter_sublist _))
  · intro e he
    have he' := List.mem_of_mem_take he
    have he'' := (sortBySizeDesc_perm _).mem_iff.mp he'
    obtain ⟨_, hp⟩ := List.mem_filter.mp he''
    simpa using hp

theorem filter_dir_mainCity (M : MathPrims) (ts : List TreeEntry) (meta : RepoMeta) :
    (mainCity M ts meta).islands.filter (fun x => x.type == IslandType.directory) =
      mapIdx0 (dirIsland M (topDirsSel ts).length) (topDirsSel ts) := by
  rw [mainCity_islands]
  rw [List.filter_cons_of_neg (by simp [coreIsland]), List.filter_append]
  rw [List.filter_eq_self.mpr ?_, List.filter_eq_nil_iff.mpr ?_, List.append_nil]
  · intro x hx
    simp only [mapIdx0] at hx
    obtain ⟨j, a, _, rfl⟩ := mem_mapIdxFrom hx
    rw [fileIsland_type]
    split <;> simp
  · intro x hx
    simp only [mapIdx0] at hx
    obtain ⟨j, a, _, rfl⟩ := mem_mapIdxFrom hx
    simp [dirIsland]

/-- C5: edge correspondence — in the primary layout the edge list pairs up
one-to-one with the directory nodes: the edge count equals the directory node
count; the `k`-th edge runs from `(0,0,0)` (the core position) to the `k`-th
directory node's position with `isPrimary ↔ altitude > 7` and
`thickness = 2` when `altitude > 8` else `1`; and when the directory nodes
have pairwise distinct positions, each edge's target matches exactly one
directory node (so no edge attaches to a File node or joins two non-core
nodes). -/
theorem c5_edge_correspondence (M : MathPrims) (ts : List TreeEntry) (meta : RepoMeta)
    (L : CityLayout) (hne : ts ≠ [])
    (h : buildCityLayout M (some ts) (some meta) = some L) :
    L.connections.length =
      (L.islands.filter (fun n => n.type == IslandType.directory)).length ∧
    (∀ (k : Nat) (e : Connection), L.connections[k]? = some e →
      ∃ node, L.islands[k + 1]? = some node ∧ node.type = .directory ∧
        e.fromPos = (0, 0, 0) ∧ e.toPos = node.position ∧
        (e.isPrimary = true ↔ node.altitude > 7) ∧
        e.thickness = (if node.altitude > 8 then 2 else 1)) ∧
    (((L.islands.filter (fun n => n.type == IslandType.directory)).map
        Island.position).Pairwise Ne →
      ∀ e ∈ L.connections,
        ∃! node, node ∈ L.islands ∧ node.type = .directory ∧ node.position = e.toPos) := by
  match ts, hne with
  | e₀ :: rest, _ =>
    cases h
    have key : ∀ (k : Nat) (e : Connection),
        (mainCity M (e₀ :: rest) meta).connections[k]? = some e →
        ∃ node, (mainCity M (e₀ :: rest) meta).islands[k + 1]? = some node ∧
          node.type = .directory ∧ e.fromPos = (0, 0, 0) ∧ e.toPos = node.position ∧
          (e.isPrimary = true ↔ node.altitude > 7) ∧
          e.thickness = (if node.altitude > 8 then 2 else 1) := by
      intro k e hk
      rw [mainCity_connections] at hk
      simp only [mapIdx0] at hk
      rw [getElem?_mapIdxFrom] at hk
      cases hd : (topDirsSel (e₀ :: rest))[k]? with
      | none => rw [hd] at hk; simp at hk
      | some d =>
        rw [hd] at hk
        have he : dirConnection M (topDirsSel (e₀ :: rest)).length (0 + k) d = e := by
          simpa using hk
        subst he
        have hklen : k < (topDirsSel (e₀ :: rest)).length :=
          (List.getElem?_eq_some.mp hd).1
        refine ⟨dirIsland M (topDirsSel (e₀ :: rest)).length (0 + k) d,
          ?_, rfl, rfl, rfl, decide_eq_true_iff, rfl⟩
        rw [mainCity_islands]
        simp only [List.getElem?_cons_succ]
        rw [List.getElem?_append_left (by simp only [mapIdx0]; rw [length_mapIdxFrom]; exact hklen)]
        simp only [mapIdx0]
        rw [getElem?_mapIdxFrom, hd]
        rfl
    refine ⟨?_, key, ?_⟩
    · rw [mainCity_connections, filter_dir_mainCity]
      simp only [mapIdx0]
      rw [length_mapIdxFrom, length_mapIdxFrom]
    · intro hpw e he
      obtain ⟨k, hk⟩ := List.mem_iff_getElem?.mp he
      obtain ⟨node, hnode, hdir, _, hto, _, _⟩ := key k e hk
      have hnodemem : node ∈ (mainCity M (e₀ :: rest) meta).islands :=
        List.getElem?_mem hnode
      refine ⟨node, ⟨hnodemem, hdir, hto.symm⟩, ?_⟩
      rintro y ⟨hymem, hydir, hypos⟩
      have hfn : node ∈ (mainCity M (e₀ :: rest) meta).islands.filter
          (fun n => n.type == IslandType.directory) :=
        List.mem_filter.mpr ⟨hnodemem, by simp [hdir]⟩
      have hfy : y ∈ (mainCity M (e₀ :: rest) meta).islands.filter
          (fun n => n.type == IslandType.directory) :=
        List.mem_filter.mpr ⟨hymem, by simp [hydir]⟩
      have hpw' := List.pairwise_map.mp hpw
      by_cases hyn : y = node
      · exact hyn
      · have hR : Symmetric (fun a b : Island => a.position ≠ b.position) := by
          intro a b hab hba
          exact hab hba.symm
        exact absurd (hypos.trans hto) (hpw'.forall hR hfy hfn hyn)

unseal Rat.add Rat.mul Rat.inv Rat.sub Rat.ofScientific in
theorem c5_edge_correspondence_witness :
    (mainCity M0 exTree exMeta).connections.length =
      ((mainCity M0 exTree exMeta).islands.filter
        (fun n => n.type == IslandType.directory)).length ∧
    (∃! node, node ∈ (mainCity M0 exTree exMeta).islands ∧ node.type = .directory ∧
      node.position =
        (dirConnection M0 2 0 { path := "src", type := EntryType.tree }).toPos) := by
  have H := c5_edge_correspondence M0 exTree exMeta (mainCity M0 exTree exMeta)
    (by decide) rfl
  exact ⟨H.1, H.2.2 (by decide)
    (dirConnection M0 2 0 { path := "src", type := EntryType.tree }) (by decide)⟩

/-- C6: directory placement formulas — in the primary layout, the node for the
selected top-level directory at index `k` of `n` carries
`angle = (k/n)·2π + ((sum of UTF-16 code units of the basename) mod 30)·π/180`
(a pure function of name, index and count), `radius = 14 + sin(k·1.3)·4`,
`scale = 0.8 + altitude/15`, and
`position = (cos(angle)·radius, altitude − 5, sin(angle)·radius)`. -/
theorem c6_directory_placement (M : MathPrims) (ts : List TreeEntry) (meta : RepoMeta)
    (L : CityLayout) (h : buildCityLayout M (some ts) (some meta) = some L)
    (k : Nat) (d : TreeEntry) (hd : (topDirsSel ts)[k]? = some d) :
    ∃ node angle radius, L.islands[k + 1]? = some node ∧
      node.angle = some angle ∧ node.orbitRadius = some radius ∧
      angle = ((k : ℚ) / ((topDirsSel ts).length : ℚ)) * (2 * M.pi) +
        ((nameHash (basename d.path) % 30 : Nat) : ℚ) * (M.pi / 180) ∧
      radius = 14 + M.sin ((k : ℚ) * 1.3) * 4 ∧
      node.altitude = getAltitude (basename d.path) (pathDepth d.path) ∧
      node.scale = 0.8 + node.altitude / 15 ∧
      node.position = (M.cos angle * radius, node.altitude - 5, M.sin angle * radius) := by
  match ts with
  | [] => simp [topDirsSel, dirsSel] at hd
  | e₀ :: rest =>
    cases h
    have hklen : k < (topDirsSel (e₀ :: rest)).length := (List.getElem?_eq_some.mp hd).1
    refine ⟨dirIsland M (topDirsSel (e₀ :: rest)).length (0 + k) d,
      nameToAngle M (basename d.path) (0 + k) (topDirsSel (e₀ :: rest)).length,
      ISLAND_RADIUS_BASE + M.sin (((0 + k : Nat) : ℚ) * 1.3) * 4,
      ?_, rfl, rfl, ?_, ?_, rfl, rfl, rfl⟩
    · rw [mainCity_islands]
      simp only [List.getElem?_cons_succ]
      rw [List.getElem?_append_left
        (by simp only [mapIdx0]; rw [length_mapIdxFrom]; exact hklen)]
      simp only [mapIdx0]
      rw [getElem?_mapIdxFrom, hd]
      rfl
    · simp only [nameToAngle, Nat.zero_add]
      ring
    · simp only [ISLAND_RADIUS_BASE, Nat.zero_add]

theorem c6_directory_placement_witness :
    ∃ node angle radius,
      (mainCity M0 exTree exMeta).islands[0 + 1]? = some node ∧
      node.angle = some angle ∧ node.orbitRadius = some radius ∧
      angle = (((0 : Nat) : ℚ) / ((topDirsSel exTree).length : ℚ)) * (2 * M0.pi) +
        ((nameHash (basename ({ path := "src", type := EntryType.tree } : TreeEntry).path) % 30 :
          Nat) : ℚ) * (M0.pi / 180) ∧
      radius = 14 + M0.sin (((0 : Nat) : ℚ) * 1.3) * 4 ∧
      node.altitude = getAltitude (basename ({ path := "src", type := EntryType.tree } : TreeEntry).path)
        (pathDepth ({ path := "src", type := EntryType.tree } : TreeEntry).path) ∧
      node.scale = (0.8 : ℚ) + node.altitude / 15 ∧
      node.position = (M0.cos angle * radius, node.altitude - 5, M0.sin angle * radius) :=
  c6_directory_placement M0 exTree exMeta (mainCity M0 exTree exMeta) rfl 0
    { path := "src", type := EntryType.tree } (by decide)

theorem sizeOrDefault_gt_50000 (f : TreeEntry) :
    (50000 < sizeOrDefault f) ↔ (50000 < sizeOrZero f) := by
  unfold sizeOrDefault sizeOrZero
  cases f.size with
  | none => simp
  | some s =>
    by_cases hs : s = 0 <;> simp [hs]

theorem sizeToScale_default_eq (f : TreeEntry) :
    sizeToScale (sizeOrDefault f) = sizeToScale (sizeOrZero f) := by
  unfold sizeOrDefault sizeOrZero
  cases f.size with
  | none => rfl
  | some s =>
    by_cases hs : s = 0 <;> simp [hs, sizeToScale]

/-- C8: file node classification and scale — in the primary layout, the node
for the selected top file at index `k` is a Sun exactly when its size exceeds
50000 bytes (else a Star); its scale is the `sizeToScale` step function of its
size; that step function is monotone non-decreasing; and a 5,000,000-byte file
gets a strictly greater scale than a 5,000-byte file. -/
theorem c8_file_classification (M : MathPrims) (ts : List TreeEntry) (meta : RepoMeta)
    (L : CityLayout) (h : buildCityLayout M (some ts) (some meta) = some L)
    (k : Nat) (f : TreeEntry) (hf : (topFilesSel ts)[k]? = some f) :
    (∃ node, L.islands[(topDirsSel ts).length + k + 1]? = some node ∧
      (node.type = .sun ↔ 50000 < sizeOrZero f) ∧
      (node.type = .star ↔ sizeOrZero f ≤ 50000) ∧
      node.scale = sizeToScale (sizeOrDefault f) ∧
      node.scale = sizeToScale (sizeOrZero f)) ∧
    (∀ s s' : Nat, s ≤ s' → sizeToScale s ≤ sizeToScale s') ∧
    sizeToScale 5000 < sizeToScale 5000000 := by
  refine ⟨?_, ?_, by norm_num [sizeToScale]⟩
  · match ts with
    | [] => simp [topFilesSel, sortBySizeDesc] at hf
    | e₀ :: rest =>
      cases h
      have hklen : k < (topFilesSel (e₀ :: rest)).length := (List.getElem?_eq_some.mp hf).1
      refine ⟨fileIsland M (topFilesSel (e₀ :: rest)).length (0 + k) f, ?_, ?_, ?_, rfl,
        sizeToScale_default_eq f⟩
      · rw [mainCity_islands]
        simp only [List.getElem?_cons_succ]
        rw [List.getElem?_append_right
          (by simp only [mapIdx0]; rw [length_mapIdxFrom]; omega)]
        simp only [mapIdx0, length_mapIdxFrom]
        rw [getElem?_mapIdxFrom]
        have hidx : (topDirsSel (e₀ :: rest)).length + k - (topDirsSel (e₀ :: rest)).length = k := by
          omega
        rw [hidx, hf]
        rfl
      · rw [fileIsland_type, ← sizeOrDefault_gt_50000]
        split <;> rename_i hc
        · simpa using hc
        · simpa using hc
      · rw [fileIsland_type, ← Nat.not_lt, ← sizeOrDefault_gt_50000]
        split <;> rename_i hc <;> simp [hc]
  · intro s s' hss
    unfold sizeToScale
    split_ifs <;> first | (exfalso; omega) | norm_num

theorem c8_file_classification_witness :
    (∃ node,
      (mainCity M0 exTree exMeta).islands[(topDirsSel exTree).length + 0 + 1]? = some node ∧
      (node.type = .sun ↔ 50000 < sizeOrZero
        { path := "src/index.js", type := EntryType.blob, size := some 80000, sha := some "sha1" }) ∧
      (node.type = .star ↔ sizeOrZero
        { path := "src/index.js", type := EntryType.blob, size := some 80000, sha := some "sha1" } ≤ 50000) ∧
      node.scale = sizeToScale (sizeOrDefault
        { path := "src/index.js", type := EntryType.blob, size := some 80000, sha := some "sha1" }) ∧
      node.scale = sizeToScale (sizeOrZero
        { path := "src/index.js", type := EntryType.blob, size := some 80000, sha := some "sha1" })) ∧
    (∀ s s' : Nat, s ≤ s' → sizeToScale s ≤ sizeToScale s') ∧
    sizeToScale 5000 < sizeToScale 5000000 :=
  c8_file_classification M0 exTree exMeta (mainCity M0 exTree exMeta) rfl 0
    { path := "src/index.js", type := EntryType.blob, size := some 80000, sha := some "sha1" }
    (by decide)

end AntiGravityCity

namespace AntiGravityCity

/-- The entries that produce non-core islands: selected top-level directories
followed by selected top files. -/
def selectedEntries (t : List TreeEntry) : List TreeEntry :=
  topDirsSel t ++ topFilesSel t

/-- The id an entry contributes when its `sha` is present. -/
def shaD (e : TreeEntry) : String :=
  e.sha.getD ""

theorem jsOrString_of_present {o : Option String} {d : String}
    (h1 : o ≠ none) (h2 : o ≠ some "") : jsOrString o d = o.getD "" := by
  cases o with
  | none => exact absurd rfl h1
  | some s =>
    have hs : s ≠ "" := fun h => h2 (by rw [h])
    simp [jsOrString, hs]

theorem map_id_dirs (M : MathPrims) (n : Nat) (l : List TreeEntry) (i : Nat)
    (H : ∀ e ∈ l, e.sha ≠ none ∧ e.sha ≠ some "") :
    (mapIdxFrom (dirIsland M n) i l).map Island.id = l.map shaD := by
  apply map_mapIdxFrom
  intro j a ha
  obtain ⟨h1, h2⟩ := H a ha
  exact jsOrString_of_present h1 h2

theorem map_id_files (M : MathPrims) (m : Nat) (l : List TreeEntry) (i : Nat)
    (H : ∀ e ∈ l, e.sha ≠ none ∧ e.sha ≠ some "") :
    (mapIdxFrom (fileIsland M m) i l).map Island.id = l.map shaD := by
  apply map_mapIdxFrom
  intro j a ha
  obtain ⟨h1, h2⟩ := H a ha
  exact jsOrString_of_present h1 h2

/-- C9 (amended): node id uniqueness — when every selected entry (top-level
directory or top file) carries a present, non-empty `sha` different from
`"core-station"`, and those `sha`s are pairwise distinct, the ids of all
output nodes are pairwise distinct. (Unique paths alone do not suffice: see
the counterexample with a duplicated blob `sha`.) -/
theorem c9_id_uniqueness (M : MathPrims) (t : List TreeEntry) (meta : RepoMeta)
    (L : CityLayout) (h : buildCityLayout M (some t) (some meta) = some L)
    (hsha : ∀ e ∈ selectedEntries t,
      e.sha ≠ none ∧ e.sha ≠ some "" ∧ e.sha ≠ some "core-station")
    (hdist : ((selectedEntries t).map TreeEntry.sha).Pairwise Ne) :
    (L.islands.map Island.id).Pairwise Ne := by
  match t with
  | [] =>
    cases h
    have hids : (buildDemoCity (some meta)).islands.map Island.id =
        ["core-station", "src", "api", "components", "utils", "hooks", "store",
         "assets", "tests", "docs", "main-file", "config-file", "readme"] := rfl
    rw [hids]
    decide
  | e₀ :: rest =>
    cases h
    have hmemd : ∀ e ∈ topDirsSel (e₀ :: rest), e ∈ selectedEntries (e₀ :: rest) :=
      fun e he => List.mem_append_left _ he
    have hmemf : ∀ e ∈ topFilesSel (e₀ :: rest), e ∈ selectedEntries (e₀ :: rest) :=
      fun e he => List.mem_append_right _ he
    have hdirs := map_id_dirs M (topDirsSel (e₀ :: rest)).length (topDirsSel (e₀ :: rest)) 0
      (fun e he => ⟨(hsha e (hmemd e he)).1, (hsha e (hmemd e he)).2.1⟩)
    have hfiles := map_id_files M (topFilesSel (e₀ :: rest)).length (topFilesSel (e₀ :: rest)) 0
      (fun e he => ⟨(hsha e (hmemf e he)).1, (hsha e (hmemf e he)).2.1⟩)
    rw [mainCity_islands]
    simp only [List.map_cons, List.map_append, mapIdx0]
    rw [hdirs, hfiles, ← List.map_append]
    refine List.pairwise_cons.mpr ⟨?_, ?_⟩
    · intro y hy
      obtain ⟨e, he, rfl⟩ := List.mem_map.mp hy
      obtain ⟨h1, h2, h3⟩ := hsha e he
      cases hs : e.sha with
      | none => exact absurd hs h1
      | some s =>
        show "core-station" ≠ shaD e
        rw [shaD, hs]
        intro hcontra
        rw [Option.getD_some] at hcontra
        exact h3 (by rw [hs, ← hcontra])
    · have hdist' := List.pairwise_map.mp hdist
      refine List.pairwise_map.mpr (hdist'.imp_of_mem ?_)
      intro a b ha hb hne
      obtain ⟨ha1, _, _⟩ := hsha a ha
      obtain ⟨hb1, _, _⟩ := hsha b hb
      cases hsa : a.sha with
      | none => exact absurd hsa ha1
      | some sa =>
        cases hsb : b.sha with
        | none => exact absurd hsb hb1
        | some sb =>
          rw [shaD, shaD, hsa, hsb, Option.getD_some, Option.getD_some]
          intro hcontra
          exact hne (by rw [hsa, hsb, hcontra])

theorem c9_id_uniqueness_witness :
    ((mainCity M0
        [{ path := "src", type := EntryType.tree, sha := some "s1" },
         { path := "a.js", type := EntryType.blob, size := some 7, sha := some "s2" }]
        { name := "r" }).islands.map Island.id).Pairwise Ne :=
  c9_id_uniqueness M0
    [{ path := "src", type := EntryType.tree, sha := some "s1" },
     { path := "a.js", type := EntryType.blob, size := some 7, sha := some "s2" }]
    { name := "r" } _ rfl (by decide) (by decide)

/-- C9 counterexample: on an input with unique paths but a duplicated blob
`sha` — exactly what git produces for two files with identical contents — the
two file nodes receive the same id, so unique paths alone do not make node
ids pairwise distinct. -/
theorem c9_counterexample :
    (([{ path := "x", type := EntryType.blob, size := some 5, sha := some "a" },
       { path := "y", type := EntryType.blob, size := some 3, sha := some "a" }] :
        List TreeEntry).map TreeEntry.path).Pairwise Ne ∧
    ¬ ((mainCity M0
        [{ path := "x", type := EntryType.blob, size := some 5, sha := some "a" },
         { path := "y", type := EntryType.blob, size := some 3, sha := some "a" }]
        { name := "r" }).islands.map Island.id).Pairwise Ne ∧
    buildCityLayout M0
        (some [{ path := "x", type := EntryType.blob, size := some 5, sha := some "a" },
               { path := "y", type := EntryType.blob, size := some 3, sha := some "a" }])
        (some { name := "r" }) =
      some (mainCity M0
        [{ path := "x", type := EntryType.blob, size := some 5, sha := some "a" },
         { path := "y", type := EntryType.blob, size := some 3, sha := some "a" }]
        { name := "r" }) := by
  refine ⟨by decide, ?_, rfl⟩
  have hids : (mainCity M0
      [{ path := "x", type := EntryType.blob, size := some 5, sha := some "a" },
       { path := "y", type := EntryType.blob, size := some 3, sha := some "a" }]
      { name := "r" }).islands.map Island.id = ["core-station", "a", "a"] := rfl
  rw [hids]
  decide

/-- C10 (implicit): absent-size files — a File entry whose `size` is absent or
`0` sorts with key `0` (the minimum), but its placement uses size `1000`: the
node is a Star with scale `0.6` and altitude `2`, and its recorded `fileSize`
is `1000` rather than the input value. -/
theorem c10_absent_size_files (M : MathPrims) (e : TreeEntry) (i m : Nat)
    (h : e.size = none ∨ e.size = some 0) :
    sizeOrZero e = 0 ∧
    (∀ e' : TreeEntry, sizeOrZero e ≤ sizeOrZero e') ∧
    sizeOrDefault e = 1000 ∧
    (fileIsland M m i e).type = .star ∧
    (fileIsland M m i e).scale = 0.6 ∧
    (fileIsland M m i e).altitude = 2 ∧
    (fileIsland M m i e).fileSize = some 1000 := by
  have hz : sizeOrZero e = 0 := by
    rcases h with h | h <;> simp [sizeOrZero, h]
  have hd : sizeOrDefault e = 1000 := by
    rcases h with h | h <;> simp [sizeOrDefault, h]
  refine ⟨hz, fun e' => by rw [hz]; exact Nat.zero_le _, hd, ?_, ?_, ?_, ?_⟩
  · rw [fileIsland_type, hd]
    rfl
  · show sizeToScale (sizeOrDefault e) = 0.6
    rw [hd]
    rfl
  · show (2 : ℚ) + (if sizeOrDefault e > 50000 then 4 else 0) = 2
    rw [hd]
    norm_num
  · show some (sizeOrDefault e) = some 1000
    rw [hd]

theorem c10_absent_size_files_witness :
    sizeOrZero { path := "empty.bin", type := EntryType.blob, size := some 0 } = 0 ∧
    sizeOrDefault { path := "empty.bin", type := EntryType.blob, size := some 0 } = 1000 ∧
    (fileIsland M0 1 0 { path := "empty.bin", type := EntryType.blob, size := some 0 }).type = .star ∧
    (fileIsland M0 1 0 { path := "empty.bin", type := EntryType.blob, size := some 0 }).scale = 0.6 ∧
    (fileIsland M0 1 0 { path := "empty.bin", type := EntryType.blob, size := some 0 }).altitude = 2 ∧
    (fileIsland M0 1 0 { path := "empty.bin", type := EntryType.blob, size := some 0 }).fileSize = some 1000 :=
  have H := c10_absent_size_files M0
    { path := "empty.bin", type := EntryType.blob, size := some 0 } 0 1 (Or.inr rfl)
  ⟨H.1, H.2.2.1, H.2.2.2.1, H.2.2.2.2.1, H.2.2.2.2.2.1, H.2.2.2.2.2.2⟩

end AntiGravityCity
